import Mathlib

/-!
Verification of the data/state-management core of `src/app_tareas.py`
(team task-planning and peer-voting tool built on four JSON-backed
collections: users, weekly entries, unassigned tasks, votes).

The Python collections are dictionaries with string keys preserving
insertion order; they are embedded as association lists `List (String × α)`
with Python-`dict`-faithful update semantics (assignment to an existing key
replaces the value in place, assignment to a fresh key appends).  Page-level
button handlers are embedded as pure state transformers; the week identifier
(computed from the wall clock by `get_current_week_year`) and the fresh
task id (`uuid.uuid4()`) are passed as explicit parameters.  Fallible
handlers return `Except AppError`; an error result models the handler
rejecting the action, in which case the Python code leaves the collection
untouched and calls no `save_data`.
-/

deriving instance DecidableEq for Except

namespace AppTareas

/-- Python `dict` with string keys, as an insertion-ordered association list. -/
abbrev Dict (α : Type) := List (String × α)

namespace Dict

/-- `d.get? k`: Python `d.get(k)` — value at the first matching key. -/
def get? (k : String) : Dict α → Option α
  | [] => none
  | (k', v) :: rest => if k' = k then some v else get? k rest

/-- Python `d.get(k, dflt)`. -/
def getD (k : String) (dflt : α) (d : Dict α) : α :=
  (get? k d).getD dflt

/-- Python `k in d`. -/
def containsKey (k : String) (d : Dict α) : Bool :=
  (get? k d).isSome

/-- Python `d[k] = v`: replace in place if the key is present, else append. -/
def insert (k : String) (v : α) : Dict α → Dict α
  | [] => [(k, v)]
  | (k', v') :: rest => if k' = k then (k, v) :: rest else (k', v') :: insert k v rest

/-- The keys of the dictionary, in order. -/
def keys (d : Dict α) : List String := d.map Prod.fst

/-- Number of entries stored under key `k`. -/
def countKey (k : String) (d : Dict α) : Nat :=
  (keys d).count k

/-- A well-formed Python dictionary state: no duplicate keys. -/
def keysNodup (d : Dict α) : Prop := (keys d).Nodup

instance (d : Dict α) : Decidable (keysNodup d) := by
  unfold keysNodup; infer_instance

end Dict

/-- `TASK_STATUSES` (`app_tareas.py:16`). -/
def TASK_STATUSES : List String :=
  ["Pendiente ⚪", "En Progreso 🟡", "Bloqueada 🔴", "Completada ✅"]

/-- `TASK_STATUSES[0]`, the status given to every newly created or claimed task. -/
def statusPendiente : String := "Pendiente ⚪"

/--
A task record.  Tasks created by `weekly_input_page` carry the four keys
`id / title / desc / status`; tasks in the unassigned pool additionally carry
the provenance keys `added_by / week_added` (`app_tareas.py:240-245,426-433`).
The provenance keys are optional to reflect their presence in only some records.
-/
structure Task where
  id : String
  title : String
  desc : String
  status : String
  added_by : Option String := none
  week_added : Option String := none
deriving Repr, DecidableEq

/-- A weekly entry `{'hours': ..., 'tasks': [...]}` (`app_tareas.py:193`). -/
structure WeeklyEntry where
  hours : Nat
  tasks : List Task
deriving Repr, DecidableEq

/-- A user record in `users_db` (`app_tareas.py:70-78`). -/
structure UserRec where
  password : String
  role : String
  full_name : String
  password_set : Bool
deriving Repr, DecidableEq

/-- The error taxonomy of the spec; handlers reject actions with one of these. -/
inductive AppError where
  | validationError
  | forbidden
  | conflict
  | notFound
  | keyError
deriving Repr, DecidableEq

/-- `entry_key = f"{user}_{current_week}"` (`app_tareas.py:191,455`). -/
def mkEntryKey (user week : String) : String := user ++ "_" ++ week

/-- `vote_key = f"{voter}_{current_week}_{target}"` (`app_tareas.py:377`). -/
def mkVoteKey (voter week target : String) : String :=
  voter ++ "_" ++ week ++ "_" ++ target

/-- The votes collection: `vote_key ↦ score` (`app_tareas.py:55,404`). -/
abbrev Votes := Dict Nat

/--
Casting a vote, embedded from the voting block of `team_hub_page`
(`app_tareas.py:376-409`): the vote widget is rendered only under the guard
`user != st.session_state.logged_in_user` (self-voting impossible, modelled as
`AppError.forbidden`); the button handler then runs
`st.session_state.votes[vote_key] = score` followed by `save_data`
unconditionally — there is no existence check on `vote_key`.
-/
def castVote (votes : Votes) (voter week target : String) (score : Nat) :
    Except AppError Votes :=
  if voter = target then .error .forbidden
  else .ok (Dict.insert (mkVoteKey voter week target) score votes)

/-- The weekly-entries collection: `f"{user}_{week}" ↦ entry` (`app_tareas.py:53`). -/
abbrev WeeklyEntries := Dict WeeklyEntry

/-- The default entry `{'hours': 0, 'tasks': []}` (`app_tareas.py:193,457`). -/
def emptyEntry : WeeklyEntry := { hours := 0, tasks := [] }

/--
Adding a task, embedded from the new-task form handler of `weekly_input_page`
(`app_tareas.py:234-252`): the guard `if submitted_task and task_title:` rejects
an empty title (the handler then does nothing — no append, no `save_data`;
modelled as `AppError.validationError`); otherwise a task with a fresh uuid
(`newId` here), the given title/description and status `TASK_STATUSES[0]` is
appended to the current entry's task list (the entry defaulting to
`{'hours': 0, 'tasks': []}`, line 193) and the collection is saved.
-/
def addTask (entries : WeeklyEntries) (user week newId title desc : String) :
    Except AppError WeeklyEntries :=
  if title = "" then .error .validationError
  else
    let key := mkEntryKey user week
    let entry := Dict.getD key emptyEntry entries
    let newTask : Task := { id := newId, title := title, desc := desc, status := statusPendiente }
    .ok (Dict.insert key { entry with tasks := entry.tasks ++ [newTask] } entries)

/-- Replace the first task satisfying `p` (Python mutates the first match found). -/
def updateFirst (p : Task → Bool) (f : Task → Task) : List Task → List Task
  | [] => []
  | t :: ts => if p t then f t :: ts else t :: updateFirst p f ts

/--
Editing a task, embedded from the edit form of `weekly_input_page`
(`app_tareas.py:205-232`): when no task of the current entry carries
`editing_task_id` the handler leaves edit mode without saving (collection
unchanged); the guard `if submitted_edit and edited_title:` drops an empty
title silently (collection unchanged); otherwise the first task with the id
gets the new title and description in place (id and status preserved) and the
collection is saved.
-/
def editTask (entries : WeeklyEntries) (user week taskId newTitle newDesc : String) :
    WeeklyEntries :=
  let key := mkEntryKey user week
  let entry := Dict.getD key emptyEntry entries
  if ¬ entry.tasks.any (fun t => t.id = taskId) then entries
  else if newTitle = "" then entries
  else
    let tasks' := updateFirst (fun t => t.id = taskId)
      (fun t => { t with title := newTitle, desc := newDesc }) entry.tasks
    Dict.insert key { entry with tasks := tasks' } entries

/--
Changing a task's status, embedded from the status selectbox handler of
`weekly_input_page` (`app_tareas.py:268-280`): the widget exists only for tasks
of the current entry (absent id modelled as no change); `if new_status !=
task.get('status'):` writes the new status in place and saves, otherwise
nothing happens.
-/
def setTaskStatus (entries : WeeklyEntries) (user week taskId newStatus : String) :
    WeeklyEntries :=
  let key := mkEntryKey user week
  let entry := Dict.getD key emptyEntry entries
  match entry.tasks.find? (fun t => t.id = taskId) with
  | none => entries
  | some t =>
    if newStatus = t.status then entries
    else
      let tasks' := updateFirst (fun t' => t'.id = taskId)
        (fun t' => { t' with status := newStatus }) entry.tasks
      Dict.insert key { entry with tasks := tasks' } entries

/--
Deleting a task, embedded from the delete button of `weekly_input_page`
(`app_tareas.py:287-292`): `current_entry['tasks'].pop(i)` for the button's
list index `i`, then store and save (an out-of-range `i` cannot arise from the
rendered buttons; `List.eraseIdx` leaves the list unchanged there).
-/
def deleteTask (entries : WeeklyEntries) (user week : String) (i : Nat) :
    WeeklyEntries :=
  let key := mkEntryKey user week
  let entry := Dict.getD key emptyEntry entries
  Dict.insert key { entry with tasks := entry.tasks.eraseIdx i } entries

/--
Saving the weekly plan, embedded from the save button of `weekly_input_page`
(`app_tareas.py:297-300`): writes the hours of the `st.number_input` widget
(range-clamped to 0..100 by the widget itself, lines 195-201) into the current
entry and saves.
-/
def setWeeklyHours (entries : WeeklyEntries) (user week : String) (hours : Nat) :
    WeeklyEntries :=
  let key := mkEntryKey user week
  let entry := Dict.getD key emptyEntry entries
  Dict.insert key { entry with hours := hours } entries

/--
Claiming an unassigned task, embedded from the take-task button of
`unassigned_tasks_page` for the pool task at index `i`
(`app_tareas.py:452-484`): the claimant's current-week entry is created as
`{'hours': 0, 'tasks': []}` if absent (lines 455-461); if the pool task's id is
not among the entry's task ids, `task.copy()` with status reset to
`TASK_STATUSES[0]` is appended and the entries collection saved (lines
463-468); the index is then unconditionally recorded in
`tasks_to_remove_indices` and deleted from the pool, which is saved (lines
470, 480-484).  Returns the updated `(weekly_entries, unassigned_tasks)` pair.
-/
def claimTask (entries : WeeklyEntries) (pool : List Task) (user week : String)
    (i : Nat) : WeeklyEntries × List Task :=
  match pool.get? i with
  | none => (entries, pool)
  | some task =>
    let key := mkEntryKey user week
    let entries0 :=
      if ¬ Dict.containsKey key entries then Dict.insert key emptyEntry entries
      else entries
    let entry := Dict.getD key emptyEntry entries0
    let userTaskIds := entry.tasks.map Task.id
    let entries1 :=
      if ¬ userTaskIds.contains task.id then
        Dict.insert key
          { entry with tasks := entry.tasks ++ [{ task with status := statusPendiente }] }
          entries0
      else entries0
    (entries1, pool.eraseIdx i)

/--
The state of a persisted store as seen by `load_data` (`app_tareas.py:29-38`):
the file may be missing, present but not valid JSON (a `json.JSONDecodeError`
on `json.load`), or readable with parsed contents `a`.
-/
inductive Store (α : Type) where
  | missing
  | corrupt
  | good (a : α)
deriving Repr, DecidableEq

/--
`load_data(filepath, default_data_factory)` (`app_tareas.py:29-38`): returns
the parsed contents when the file exists and parses; on a missing file or a
`JSONDecodeError` (a warning is surfaced via `st.error`) it returns
`default_data_factory()` instead of raising.
-/
def load_data (store : Store α) (default_data_factory : Unit → α) : α :=
  match store with
  | .missing => default_data_factory ()
  | .corrupt => default_data_factory ()
  | .good a => a

/-- `load_data(USERS_FILE, dict)` (`app_tareas.py:52`). -/
def loadUsers (s : Store (Dict UserRec)) : Dict UserRec :=
  load_data s (fun _ => ([] : Dict UserRec))

/-- `load_data(WEEKLY_ENTRIES_FILE, dict)` (`app_tareas.py:53`). -/
def loadWeeklyEntries (s : Store WeeklyEntries) : WeeklyEntries :=
  load_data s (fun _ => ([] : WeeklyEntries))

/-- `load_data(UNASSIGNED_TASKS_FILE, list)` (`app_tareas.py:54`). -/
def loadUnassignedTasks (s : Store (List Task)) : List Task :=
  load_data s (fun _ => ([] : List Task))

/-- `load_data(VOTES_FILE, dict)` (`app_tareas.py:55`). -/
def loadVotes (s : Store Votes) : Votes :=
  load_data s (fun _ => ([] : Votes))

/--
The session fields relevant to authentication (`app_tareas.py:99-103`).
`none` stands for Python `None`.
-/
structure Session where
  logged_in_user : Option String
  user_role : Option String
  user_full_name : Option String
  force_password_reset_for_user : Option String
deriving Repr, DecidableEq

/-- The session right after `initialize_data` (`app_tareas.py:99-103`). -/
def initialSession : Session :=
  { logged_in_user := none, user_role := none, user_full_name := none,
    force_password_reset_for_user := none }

/-- Python truthiness of an optional string (`None` and `""` are falsy). -/
def truthyStr : Option String → Bool
  | none => false
  | some s => ¬ s = ""

/--
`check_password(hashed_password, password)` (`app_tareas.py:44-47`): `False`
when the stored hash is falsy (empty), otherwise defers to werkzeug's
`check_password_hash`, abstracted here as the parameter `verify`.
-/
def check_password (verify : String → String → Bool) (hashed password : String) :
    Bool :=
  if hashed = "" then false else verify hashed password

/--
Logging in, embedded from the button handler of `login_page`
(`app_tareas.py:151-165`): on unknown user or failed password check an error
message is shown and the session is unchanged; on success with
`password_set` falsy only `force_password_reset_for_user` is set (no session
binding); otherwise the session is bound to (username, role, full name).
-/
def authenticate (verify : String → String → Bool) (users : Dict UserRec)
    (sess : Session) (username password : String) : Session :=
  match Dict.get? username users with
  | none => sess
  | some u =>
    if check_password verify u.password password then
      if ¬ u.password_set then
        { sess with force_password_reset_for_user := some username }
      else
        { sess with
            logged_in_user := some username,
            user_role := some u.role,
            user_full_name := some u.full_name }
    else sess

/--
Completing the forced password setup, embedded from the form handler of
`new_password_setup_page` (`app_tareas.py:122-142`): rejects when either field
is empty, the fields differ, or the new password is shorter than 6 characters
(error message only, nothing stored — `AppError.validationError`); otherwise
stores `hash_password(new_password)` (the hash function is the abstract
parameter `hash`), sets `password_set = True`, saves the users collection, and
binds the session to the user, clearing `force_password_reset_for_user`.
`users_db[username]` on an unknown username would raise a Python `KeyError`,
modelled as `AppError.keyError` (unreachable from `main`, which passes the
username stored at login).
-/
def completePasswordSetup (hash : String → String) (users : Dict UserRec)
    (sess : Session) (username newPassword confirmPassword : String) :
    Except AppError (Dict UserRec × Session) :=
  if newPassword = "" ∨ confirmPassword = "" then .error .validationError
  else if ¬ newPassword = confirmPassword then .error .validationError
  else if newPassword.length < 6 then .error .validationError
  else
    match Dict.get? username users with
    | none => .error .keyError
    | some u =>
      let u' := { u with password := hash newPassword, password_set := true }
      let sess' : Session :=
        { sess with
          logged_in_user := some username,
          user_role := some u.role,
          user_full_name := some u.full_name,
          force_password_reset_for_user := none }
      .ok (Dict.insert username u' users, sess')

/-- The page `main` routes to. -/
inductive Page where
  | passwordSetup (username : String)
  | login
  | dashboard
deriving Repr, DecidableEq

/--
The routing of `main` (`app_tareas.py:590-593`):
`if st.session_state.get('force_password_reset_for_user'):` shows the password
setup page; `elif not st.session_state.get('logged_in_user'):` shows the login
page; otherwise the logged-in dashboard (truthiness of the stored strings as
in Python).
-/
def route (sess : Session) : Page :=
  if truthyStr sess.force_password_reset_for_user then
    .passwordSetup (sess.force_password_reset_for_user.getD "")
  else if ¬ truthyStr sess.logged_in_user then .login
  else .dashboard

/-! ### Library lemmas about the `Dict` embedding -/

namespace Dict

variable {α : Type}

theorem get?_insert_self (k : String) (v : α) (d : Dict α) :
    get? k (insert k v d) = some v := by
  induction d with
  | nil => simp [insert, get?]
  | cons p rest ih =>
    obtain ⟨k', v'⟩ := p
    by_cases h : k' = k
    · simp [insert, h, get?]
    · simp [insert, h, get?, ih]

theorem get?_eq_none_of_not_mem_keys {k : String} {d : Dict α}
    (h : k ∉ keys d) : get? k d = none := by
  induction d with
  | nil => simp [get?]
  | cons p rest ih =>
    obtain ⟨k', v'⟩ := p
    simp only [keys, List.map_cons, List.mem_cons] at h
    push_neg at h
    simp [get?, Ne.symm h.1, ih (by simpa [keys] using h.2)]

theorem containsKey_of_mem_keys {k : String} {d : Dict α}
    (h : k ∈ keys d) : containsKey k d = true := by
  induction d with
  | nil => simp [keys] at h
  | cons p rest ih =>
    obtain ⟨k', v'⟩ := p
    rw [keys, List.map_cons] at h
    rcases List.mem_cons.mp h with h1 | h2
    · subst h1
      simp [containsKey, get?]
    · by_cases hk : k' = k
      · simp [containsKey, get?, hk]
      · simpa [containsKey, get?, hk] using ih h2

theorem keys_insert (k : String) (v : α) (d : Dict α) :
    keys (insert k v d) =
      if containsKey k d then keys d else keys d ++ [k] := by
  induction d with
  | nil => simp [insert, keys, containsKey, get?]
  | cons p rest ih =>
    obtain ⟨k', v'⟩ := p
    by_cases h : k' = k
    · subst h
      simp [insert, keys, containsKey, get?]
    · simp only [insert, if_neg h, keys, List.map_cons, containsKey, get?,
        if_neg h] at *
      rw [ih]
      by_cases hc : (get? k rest).isSome <;> simp [hc]

theorem keysNodup_insert {d : Dict α} (k : String) (v : α)
    (h : keysNodup d) : keysNodup (insert k v d) := by
  unfold keysNodup at *
  rw [keys_insert]
  by_cases hc : containsKey k d
  · simpa [hc]
  · rw [if_neg hc]
    refine List.Nodup.append h (List.nodup_singleton k) ?_
    intro a ha hb
    simp only [List.mem_singleton] at hb
    subst hb
    exact hc (containsKey_of_mem_keys ha)

theorem countKey_le_one {d : Dict α} (h : keysNodup d) (k : String) :
    countKey k d ≤ 1 :=
  List.nodup_iff_count_le_one.mp h k

end Dict

/-- The weekly-entries collection after an `addTask` attempt: a rejected
submission leaves the collection untouched (`app_tareas.py:239` — the handler
body, including `save_data`, runs only under `if submitted_task and
task_title:`). -/
def addTaskApplied (entries : WeeklyEntries) (user week newId title desc : String) :
    WeeklyEntries :=
  match addTask entries user week newId title desc with
  | .error _ => entries
  | .ok entries' => entries'

/-! ### Claim theorems -/

/--
C3: for every user `u`, week `w` and score `s`, `castVote u w u s` fails with
Forbidden — the voting widget of `team_hub_page` is rendered only under
`user != st.session_state.logged_in_user` (`app_tareas.py:376,408-409`), so no
vote whose voter equals its target is ever recorded: the error result carries
no updated votes collection.
-/
theorem castVote_self_forbidden (votes : Votes) (u w : String) (s : Nat) :
    castVote votes u w u s = Except.error AppError.forbidden := by
  simp [castVote]

/--
C1 counterexample: with the vote `tomic → nico` in week `2025-41` already
stored with score 4, a second `castVote` by `tomic` for `nico` with score 2
does NOT fail with Conflict: it succeeds and the stored score for that key
becomes 2 (`app_tareas.py:403-405` assigns `votes[vote_key] = score`
unconditionally, with no existence check).
-/
theorem castVote_second_vote_not_rejected :
    Dict.get? (mkVoteKey "tomic" "2025-41" "nico")
        [("tomic_2025-41_nico", 4)] = some 4
    ∧ castVote [("tomic_2025-41_nico", 4)] "tomic" "2025-41" "nico" 2
        = Except.ok [("tomic_2025-41_nico", 2)]
    ∧ Dict.get? (mkVoteKey "tomic" "2025-41" "nico")
        [("tomic_2025-41_nico", 2)] = some 2 := by
  decide

/--
C1 (amended): if a Vote already exists for the key `(v, w, t)`, a second
`castVote v w t s'` (with `v ≠ t`) succeeds and OVERWRITES the stored score
with `s'` — last write wins; no Conflict error exists and the original score
is not preserved.  The key set of the collection is unchanged (the write
replaces in place).
-/
theorem castVote_overwrites (votes : Votes) (v w t : String) (s s' : Nat)
    (hvt : v ≠ t) (hex : Dict.get? (mkVoteKey v w t) votes = some s) :
    castVote votes v w t s'
      = Except.ok (Dict.insert (mkVoteKey v w t) s' votes)
    ∧ Dict.get? (mkVoteKey v w t) (Dict.insert (mkVoteKey v w t) s' votes)
      = some s'
    ∧ Dict.keys (Dict.insert (mkVoteKey v w t) s' votes) = Dict.keys votes := by
  refine ⟨by simp [castVote, hvt], Dict.get?_insert_self _ _ _, ?_⟩
  rw [Dict.keys_insert]
  simp [Dict.containsKey, hex]

/-- Witness for C1 (amended), at the stored vote `tomic → nico`, score 4,
re-voted with score 2. -/
theorem castVote_overwrites_witness :
    castVote [("tomic_2025-41_nico", 4)] "tomic" "2025-41" "nico" 2
      = Except.ok (Dict.insert (mkVoteKey "tomic" "2025-41" "nico") 2
          [("tomic_2025-41_nico", 4)])
    ∧ Dict.get? (mkVoteKey "tomic" "2025-41" "nico")
        (Dict.insert (mkVoteKey "tomic" "2025-41" "nico") 2
          [("tomic_2025-41_nico", 4)]) = some 2
    ∧ Dict.keys (Dict.insert (mkVoteKey "tomic" "2025-41" "nico") 2
        [("tomic_2025-41_nico", 4)])
      = Dict.keys [("tomic_2025-41_nico", 4)] :=
  castVote_overwrites [("tomic_2025-41_nico", 4)] "tomic" "2025-41" "nico" 4 2
    (by decide) (by decide)

/--
C4: `addTask` with an empty title fails with ValidationError and leaves the
entry's task sequence unchanged — the handler body (append and `save_data`)
runs only under `if submitted_task and task_title:` (`app_tareas.py:239-252`),
so nothing is appended and nothing is persisted.
-/
theorem addTask_empty_title_rejected
    (entries : WeeklyEntries) (user week newId desc : String) :
    addTask entries user week newId "" desc = Except.error AppError.validationError
    ∧ addTaskApplied entries user week newId "" desc = entries := by
  constructor
  · simp [addTask]
  · simp [addTaskApplied, addTask]

/--
C7: for each of the four collections (Users, WeeklyEntries, UnassignedTasks,
Votes), loading a store that is missing or whose contents cannot be parsed
returns the empty default of the collection's shape (`load_data`,
`app_tareas.py:29-38`, with the factories `dict`, `dict`, `list`, `dict` of
`app_tareas.py:52-55`) rather than raising an error.
-/
theorem load_missing_or_corrupt_defaults
    (s1 : Store (Dict UserRec)) (s2 : Store WeeklyEntries)
    (s3 : Store (List Task)) (s4 : Store Votes)
    (h1 : s1 = Store.missing ∨ s1 = Store.corrupt)
    (h2 : s2 = Store.missing ∨ s2 = Store.corrupt)
    (h3 : s3 = Store.missing ∨ s3 = Store.corrupt)
    (h4 : s4 = Store.missing ∨ s4 = Store.corrupt) :
    loadUsers s1 = [] ∧ loadWeeklyEntries s2 = []
    ∧ loadUnassignedTasks s3 = [] ∧ loadVotes s4 = [] := by
  refine ⟨?_, ?_, ?_, ?_⟩ <;>
    [rcases h1 with rfl | rfl; rcases h2 with rfl | rfl;
     rcases h3 with rfl | rfl; rcases h4 with rfl | rfl] <;>
    rfl

/-- Witness for C7, at a missing users store, a corrupt weekly-entries store,
a missing pool store and a corrupt votes store. -/
theorem load_missing_or_corrupt_defaults_witness :
    loadUsers Store.missing = [] ∧ loadWeeklyEntries Store.corrupt = []
    ∧ loadUnassignedTasks Store.missing = [] ∧ loadVotes Store.corrupt = [] :=
  load_missing_or_corrupt_defaults Store.missing Store.corrupt Store.missing
    Store.corrupt (Or.inl rfl) (Or.inr rfl) (Or.inl rfl) (Or.inr rfl)

/-- A seeded collaborator record with `password_set = False`
(`app_tareas.py:72-78`), for concrete instances. -/
def nicoUser : UserRec :=
  { password := "hash0", role := "collaborator", full_name := "Nicolas Chavez",
    password_set := false }

/-- A one-user users collection, for concrete instances. -/
def usersSeed : Dict UserRec := [("nico", nicoUser)]

/--
C5: `completePasswordSetup(username, newPassword, confirmPassword)` (the form
handler of `new_password_setup_page`, `app_tareas.py:122-142`) fails with
ValidationError exactly when either field is empty, the two fields differ, or
the new password is shorter than 6 characters; otherwise it stores the hash of
the new password, sets the user's `password_set` flag to true (the users
collection is saved on this branch), and transitions the session from
PendingPasswordSetup to LoggedIn (session bound to the user,
`force_password_reset_for_user` cleared).
-/
theorem completePasswordSetup_spec (hash : String → String)
    (users : Dict UserRec) (sess : Session) (username np cp : String)
    (u : UserRec) (hu : Dict.get? username users = some u) :
    (completePasswordSetup hash users sess username np cp
        = Except.error AppError.validationError
      ↔ (np = "" ∨ cp = "" ∨ np ≠ cp ∨ np.length < 6))
    ∧ (np ≠ "" → cp ≠ "" → np = cp → 6 ≤ np.length →
        completePasswordSetup hash users sess username np cp
          = Except.ok
              (Dict.insert username
                { u with password := hash np, password_set := true } users,
               { sess with
                  logged_in_user := some username,
                  user_role := some u.role,
                  user_full_name := some u.full_name,
                  force_password_reset_for_user := none })) := by
  constructor
  · unfold completePasswordSetup
    by_cases h1 : np = "" ∨ cp = ""
    · rw [if_pos h1]
      exact iff_of_true rfl (by tauto)
    · rw [if_neg h1]
      by_cases h2 : np = cp
      · rw [if_neg (not_not_intro h2)]
        by_cases h3 : np.length < 6
        · rw [if_pos h3]
          exact iff_of_true rfl (by tauto)
        · rw [if_neg h3]
          push_neg at h1
          refine iff_of_false ?_ ?_
          · simp [hu]
          · push_neg
            exact ⟨h1.1, h1.2, h2, Nat.le_of_not_lt h3⟩
      · rw [if_pos h2]
        exact iff_of_true rfl (by tauto)
  · intro hnp hcp heq hlen
    simp only [completePasswordSetup, if_neg (show ¬(np = "" ∨ cp = "") by tauto),
      if_neg (not_not_intro heq), if_neg (Nat.not_lt.mpr hlen), hu]

/-- Witness for C5: the seeded user `nico` completes setup with the valid
password `secret1`; the identity function stands in for the hash. -/
theorem completePasswordSetup_spec_witness :
    completePasswordSetup (fun s => s) usersSeed initialSession
        "nico" "secret1" "secret1"
      = Except.ok
          ([("nico",
              { password := "secret1", role := "collaborator",
                full_name := "Nicolas Chavez", password_set := true })],
            { logged_in_user := some "nico", user_role := some "collaborator",
              user_full_name := some "Nicolas Chavez",
              force_password_reset_for_user := none }) :=
  ((completePasswordSetup_spec (fun s => s) usersSeed initialSession
      "nico" "secret1" "secret1" nicoUser (by decide)).2
    (by decide) (by decide) rfl (by decide)).trans (by decide)

/--
C6: for a user whose record has `password_set = false`, a successful
`authenticate` with correct credentials (the login button handler,
`app_tareas.py:151-165`) does not establish a logged-in session: only
`force_password_reset_for_user` is set, `main` (`app_tareas.py:590-593`)
routes to the password-setup page, and a session (`logged_in_user` bound,
routing to the dashboard) is granted only once `completePasswordSetup`
returns successfully.
-/
theorem login_password_not_set_no_session (verify : String → String → Bool)
    (hash : String → String) (users : Dict UserRec) (sess : Session)
    (username password : String) (u : UserRec)
    (hu : Dict.get? username users = some u)
    (hpw : check_password verify u.password password = true)
    (hset : u.password_set = false)
    (hses : sess.logged_in_user = none)
    (hne : username ≠ "") :
    (authenticate verify users sess username password).logged_in_user = none
    ∧ (authenticate verify users sess username
        password).force_password_reset_for_user = some username
    ∧ route (authenticate verify users sess username password)
        = Page.passwordSetup username
    ∧ (∀ np cp users' sess',
        completePasswordSetup hash users
            (authenticate verify users sess username password) username np cp
          = Except.ok (users', sess') →
        sess'.logged_in_user = some username ∧ route sess' = Page.dashboard) := by
  have hauth : authenticate verify users sess username password
      = { sess with force_password_reset_for_user := some username } := by
    simp [authenticate, hu, hpw, hset]
  refine ⟨by rw [hauth]; exact hses, by rw [hauth], ?_, ?_⟩
  · rw [hauth]
    simp [route, truthyStr, hne]
  · intro np cp users' sess' h
    unfold completePasswordSetup at h
    split_ifs at h
    simp only [hu, Except.ok.injEq, Prod.mk.injEq] at h
    obtain ⟨-, h2⟩ := h
    subst h2
    exact ⟨rfl, by simp [route, truthyStr, hne]⟩

/-- Witness for C6: the seeded user `nico` (correct credentials accepted by
the abstract verifier) is routed to password setup without a session. -/
theorem login_password_not_set_no_session_witness :
    (authenticate (fun _ _ => true) usersSeed initialSession
        "nico" "changeme").logged_in_user = none
    ∧ (authenticate (fun _ _ => true) usersSeed initialSession
        "nico" "changeme").force_password_reset_for_user = some "nico"
    ∧ route (authenticate (fun _ _ => true) usersSeed initialSession
        "nico" "changeme") = Page.passwordSetup "nico" := by
  have h := login_password_not_set_no_session (fun _ _ => true) (fun s => s)
    usersSeed initialSession "nico" "changeme" nicoUser
    (by decide) (by decide) (by decide) (by decide) (by decide)
  exact ⟨h.1, h.2.1, h.2.2.1⟩

/-- The claimant's current-week entry as `claimTask` reads it: creating the
missing entry first (`app_tareas.py:455-461`) does not change what is read
back. -/
theorem getD_after_ensure (entries : WeeklyEntries) (key : String) :
    Dict.getD key emptyEntry
        (if ¬ Dict.containsKey key entries
         then Dict.insert key emptyEntry entries else entries)
      = Dict.getD key emptyEntry entries := by
  by_cases hc : Dict.containsKey key entries
  · simp [hc]
  · rw [if_pos (by simpa using hc)]
    unfold Dict.getD
    rw [Dict.get?_insert_self]
    have : Dict.get? key entries = none := by
      by_contra hn
      exact hc (by simpa [Dict.containsKey, Option.isSome_iff_ne_none] using hn)
    rw [this]
    rfl

/-- Unfolding of `claimTask` at a valid pool index. -/
theorem claimTask_eq (entries : WeeklyEntries) (pool : List Task)
    (user week : String) (i : Nat) (task : Task)
    (hi : pool.get? i = some task) :
    claimTask entries pool user week i =
      (let key := mkEntryKey user week
       let entries0 :=
         if ¬ Dict.containsKey key entries
         then Dict.insert key emptyEntry entries else entries
       let entry := Dict.getD key emptyEntry entries0
       let entries1 :=
         if ¬ (entry.tasks.map Task.id).contains task.id then
           Dict.insert key
             { entry with
                tasks := entry.tasks ++ [{ task with status := statusPendiente }] }
             entries0
         else entries0
       (entries1, pool.eraseIdx i)) := by
  unfold claimTask
  rw [hi]

/--
C2 (amended): claiming the pool task at index `i` whose id is NOT already
among the claimant's current-week task ids removes it from the pool and
appends exactly one task with status Pending to the claimant's current-week
entry: the pool size decreases by exactly 1 and the claimant's task count
increases by exactly 1 (`app_tareas.py:452-484`).  (The freshness hypothesis
is required: when the id is already present the copy is skipped, see the
counterexample and C9.)
-/
theorem claimTask_fresh_spec (entries : WeeklyEntries) (pool : List Task)
    (user week : String) (i : Nat) (task : Task)
    (hi : pool.get? i = some task)
    (hfresh : ¬ ((Dict.getD (mkEntryKey user week) emptyEntry entries).tasks.map
        Task.id).contains task.id) :
    ((claimTask entries pool user week i).2).length + 1 = pool.length
    ∧ (Dict.getD (mkEntryKey user week) emptyEntry
          (claimTask entries pool user week i).1).tasks.length
        = (Dict.getD (mkEntryKey user week) emptyEntry entries).tasks.length + 1
    ∧ (Dict.getD (mkEntryKey user week) emptyEntry
          (claimTask entries pool user week i).1).tasks
        = (Dict.getD (mkEntryKey user week) emptyEntry entries).tasks
            ++ [{ task with status := statusPendiente }] := by
  have hlt : i < pool.length := by
    by_contra hge
    rw [List.get?_eq_none.mpr (Nat.le_of_not_lt hge)] at hi
    exact absurd hi (by simp)
  rw [claimTask_eq entries pool user week i task hi]
  simp only [getD_after_ensure]
  rw [if_pos hfresh]
  refine ⟨by simpa using List.length_eraseIdx_add_one hlt, ?_, ?_⟩ <;>
    · unfold Dict.getD
      rw [Dict.get?_insert_self]
      simp

/--
C2 counterexample: with the claimant's current-week entry already containing a
task with id `t1` (here in progress), claiming the pool task with that same id
removes it from the pool (pool size 1 → 0) but appends NOTHING: the
claimant's task count stays 1, contradicting "increases by exactly 1"
(`app_tareas.py:463-470`: the append is guarded by
`if task['id'] not in user_task_ids:` while the removal is unconditional).
-/
theorem claimTask_duplicate_counterexample :
    claimTask
        [("nico_2025-41",
           { hours := 5,
             tasks := [{ id := "t1", title := "Fix leak", desc := "d",
                         status := "En Progreso 🟡" }] })]
        [{ id := "t1", title := "Fix leak", desc := "d",
           status := statusPendiente, added_by := some "Administrador",
           week_added := some "2025-40" }]
        "nico" "2025-41" 0
      = ([("nico_2025-41",
            { hours := 5,
              tasks := [{ id := "t1", title := "Fix leak", desc := "d",
                          status := "En Progreso 🟡" }] })],
         []) := by
  decide

/--
C9: claiming a pool task whose id already equals the id of some task in the
claimant's current-week entry still removes it from the pool but appends no
copy: the weekly-entries collection is unchanged, the pool size decreases by
exactly 1, and the task's definition is lost (`app_tareas.py:463-471,480-484`).
-/
theorem claimTask_duplicate_spec (entries : WeeklyEntries) (pool : List Task)
    (user week : String) (i : Nat) (task : Task)
    (hi : pool.get? i = some task)
    (hdup : ((Dict.getD (mkEntryKey user week) emptyEntry entries).tasks.map
        Task.id).contains task.id = true) :
    (claimTask entries pool user week i).1 = entries
    ∧ ((claimTask entries pool user week i).2).length + 1 = pool.length := by
  have hlt : i < pool.length := by
    by_contra hge
    rw [List.get?_eq_none.mpr (Nat.le_of_not_lt hge)] at hi
    exact absurd hi (by simp)
  have hc : Dict.containsKey (mkEntryKey user week) entries = true := by
    by_contra hcn
    have hnone : Dict.get? (mkEntryKey user week) entries = none := by
      simpa [Dict.containsKey, Option.isSome_iff_ne_none] using hcn
    rw [Dict.getD, hnone] at hdup
    simp [emptyEntry] at hdup
  rw [claimTask_eq entries pool user week i task hi]
  simp only [getD_after_ensure]
  rw [if_neg (not_not_intro hdup), if_neg (not_not_intro hc)]
  exact ⟨rfl, by simpa using List.length_eraseIdx_add_one hlt⟩

/--
C10: on a successful claim, the copy appended to the claimant's entry is
`task.copy()` with only the status reset to Pending
(`app_tareas.py:465-467`): id, title, description and the provenance fields
`added_by` and `week_added` are carried over unchanged.
-/
theorem claimTask_copy_preserves_fields (entries : WeeklyEntries)
    (pool : List Task) (user week : String) (i : Nat) (task : Task)
    (hi : pool.get? i = some task)
    (hfresh : ¬ ((Dict.getD (mkEntryKey user week) emptyEntry entries).tasks.map
        Task.id).contains task.id) :
    (Dict.getD (mkEntryKey user week) emptyEntry
        (claimTask entries pool user week i).1).tasks
      = (Dict.getD (mkEntryKey user week) emptyEntry entries).tasks
          ++ [{ id := task.id, title := task.title, desc := task.desc,
                status := statusPendiente, added_by := task.added_by,
                week_added := task.week_added }] := by
  rw [claimTask_eq entries pool user week i task hi]
  simp only [getD_after_ensure]
  rw [if_pos hfresh]
  unfold Dict.getD
  rw [Dict.get?_insert_self]
  rfl

/-- A published unassigned task, for concrete instances
(`app_tareas.py:426-433`). -/
def leakTask : Task :=
  { id := "t1", title := "Fix leak", desc := "d", status := statusPendiente,
    added_by := some "Administrador", week_added := some "2025-40" }

/-- A weekly-entries collection whose `nico_2025-41` entry already holds a
task with id `t1`, for concrete instances. -/
def entriesWithT1 : WeeklyEntries :=
  [("nico_2025-41",
     { hours := 5,
       tasks := [{ id := "t1", title := "Fix leak", desc := "d",
                   status := "En Progreso 🟡" }] })]

/-- Witness for C2 (amended): `nico` claims the published task into an empty
collection. -/
theorem claimTask_fresh_spec_witness :
    ((claimTask [] [leakTask] "nico" "2025-41" 0).2).length + 1
        = ([leakTask] : List Task).length
    ∧ (Dict.getD (mkEntryKey "nico" "2025-41") emptyEntry
          (claimTask [] [leakTask] "nico" "2025-41" 0).1).tasks.length
        = (Dict.getD (mkEntryKey "nico" "2025-41") emptyEntry
            ([] : WeeklyEntries)).tasks.length + 1
    ∧ (Dict.getD (mkEntryKey "nico" "2025-41") emptyEntry
          (claimTask [] [leakTask] "nico" "2025-41" 0).1).tasks
        = (Dict.getD (mkEntryKey "nico" "2025-41") emptyEntry
            ([] : WeeklyEntries)).tasks
            ++ [{ leakTask with status := statusPendiente }] :=
  claimTask_fresh_spec [] [leakTask] "nico" "2025-41" 0 leakTask rfl (by decide)

/-- Witness for C9: claiming the published task when the entry already holds
id `t1`. -/
theorem claimTask_duplicate_spec_witness :
    (claimTask entriesWithT1 [leakTask] "nico" "2025-41" 0).1 = entriesWithT1
    ∧ ((claimTask entriesWithT1 [leakTask] "nico" "2025-41" 0).2).length + 1
        = ([leakTask] : List Task).length :=
  claimTask_duplicate_spec entriesWithT1 [leakTask] "nico" "2025-41" 0 leakTask
    rfl (by decide)

/-- Witness for C10: the claimed copy of the published task keeps every field
except the status. -/
theorem claimTask_copy_preserves_fields_witness :
    (Dict.getD (mkEntryKey "nico" "2025-41") emptyEntry
        (claimTask [] [leakTask] "nico" "2025-41" 0).1).tasks
      = (Dict.getD (mkEntryKey "nico" "2025-41") emptyEntry
          ([] : WeeklyEntries)).tasks
          ++ [{ id := leakTask.id, title := leakTask.title,
                desc := leakTask.desc, status := statusPendiente,
                added_by := leakTask.added_by,
                week_added := leakTask.week_added }] :=
  claimTask_copy_preserves_fields [] [leakTask] "nico" "2025-41" 0 leakTask rfl
    (by decide)

/-! ### Preservation of key uniqueness by every weekly-entries operation -/

theorem keysNodup_addTaskApplied (entries : WeeklyEntries)
    (h : Dict.keysNodup entries) (user week newId title desc : String) :
    Dict.keysNodup (addTaskApplied entries user week newId title desc) := by
  unfold addTaskApplied addTask
  by_cases ht : title = ""
  · simp [ht, h]
  · simp only [if_neg ht]
    exact Dict.keysNodup_insert _ _ h

theorem keysNodup_editTask (entries : WeeklyEntries)
    (h : Dict.keysNodup entries) (user week taskId newTitle newDesc : String) :
    Dict.keysNodup (editTask entries user week taskId newTitle newDesc) := by
  unfold editTask
  dsimp only
  split_ifs <;> first | exact h | exact Dict.keysNodup_insert _ _ h

theorem keysNodup_setTaskStatus (entries : WeeklyEntries)
    (h : Dict.keysNodup entries) (user week taskId newStatus : String) :
    Dict.keysNodup (setTaskStatus entries user week taskId newStatus) := by
  unfold setTaskStatus
  dsimp only
  split
  · exact h
  · split_ifs
    · exact h
    · exact Dict.keysNodup_insert _ _ h

theorem keysNodup_deleteTask (entries : WeeklyEntries)
    (h : Dict.keysNodup entries) (user week : String) (i : Nat) :
    Dict.keysNodup (deleteTask entries user week i) :=
  Dict.keysNodup_insert _ _ h

theorem keysNodup_setWeeklyHours (entries : WeeklyEntries)
    (h : Dict.keysNodup entries) (user week : String) (hours : Nat) :
    Dict.keysNodup (setWeeklyHours entries user week hours) :=
  Dict.keysNodup_insert _ _ h

theorem keysNodup_claimTask_fst (entries : WeeklyEntries) (pool : List Task)
    (h : Dict.keysNodup entries) (user week : String) (i : Nat) :
    Dict.keysNodup (claimTask entries pool user week i).1 := by
  unfold claimTask
  split
  · exact h
  · dsimp only
    split <;> split <;>
      first
        | exact h
        | exact Dict.keysNodup_insert _ _ h
        | exact Dict.keysNodup_insert _ _ (Dict.keysNodup_insert _ _ h)

/--
C8: in a well-formed weekly-entries collection (no duplicate dictionary keys,
as Python's `dict` guarantees for the JSON-loaded state), at most one entry
exists for the key `f"{u}_{w}"` of any pair (u, w), and this uniqueness is
preserved by every operation: addTask, editTask, setTaskStatus, deleteTask,
setWeeklyHours (`weekly_input_page`, `app_tareas.py:189-300`, all writing
through `weekly_entries[entry_key] = current_entry`) and claim
(`unassigned_tasks_page`, `app_tareas.py:455-468`).
-/
theorem weeklyEntry_unique_per_user_week (entries : WeeklyEntries)
    (pool : List Task)
    (u w user week newId title desc taskId newTitle newDesc newStatus : String)
    (i j hours : Nat) (h : Dict.keysNodup entries) :
    Dict.countKey (mkEntryKey u w) entries ≤ 1
    ∧ Dict.countKey (mkEntryKey u w)
        (addTaskApplied entries user week newId title desc) ≤ 1
    ∧ Dict.countKey (mkEntryKey u w)
        (editTask entries user week taskId newTitle newDesc) ≤ 1
    ∧ Dict.countKey (mkEntryKey u w)
        (setTaskStatus entries user week taskId newStatus) ≤ 1
    ∧ Dict.countKey (mkEntryKey u w) (deleteTask entries user week j) ≤ 1
    ∧ Dict.countKey (mkEntryKey u w) (setWeeklyHours entries user week hours) ≤ 1
    ∧ Dict.countKey (mkEntryKey u w) (claimTask entries pool user week i).1 ≤ 1 :=
  ⟨Dict.countKey_le_one h _,
   Dict.countKey_le_one (keysNodup_addTaskApplied entries h user week newId title desc) _,
   Dict.countKey_le_one (keysNodup_editTask entries h user week taskId newTitle newDesc) _,
   Dict.countKey_le_one (keysNodup_setTaskStatus entries h user week taskId newStatus) _,
   Dict.countKey_le_one (keysNodup_deleteTask entries h user week j) _,
   Dict.countKey_le_one (keysNodup_setWeeklyHours entries h user week hours) _,
   Dict.countKey_le_one (keysNodup_claimTask_fst entries pool h user week i) _⟩

/-- Witness for C8, on a concrete well-formed collection and concrete
arguments for each operation. -/
theorem weeklyEntry_unique_per_user_week_witness :
    Dict.countKey (mkEntryKey "nico" "2025-41") entriesWithT1 ≤ 1
    ∧ Dict.countKey (mkEntryKey "nico" "2025-41")
        (addTaskApplied entriesWithT1 "nico" "2025-41" "t2" "Write docs" "") ≤ 1
    ∧ Dict.countKey (mkEntryKey "nico" "2025-41")
        (editTask entriesWithT1 "nico" "2025-41" "t1" "Fix the leak" "dd") ≤ 1
    ∧ Dict.countKey (mkEntryKey "nico" "2025-41")
        (setTaskStatus entriesWithT1 "nico" "2025-41" "t1" "Completada ✅") ≤ 1
    ∧ Dict.countKey (mkEntryKey "nico" "2025-41")
        (deleteTask entriesWithT1 "nico" "2025-41" 0) ≤ 1
    ∧ Dict.countKey (mkEntryKey "nico" "2025-41")
        (setWeeklyHours entriesWithT1 "nico" "2025-41" 40) ≤ 1
    ∧ Dict.countKey (mkEntryKey "nico" "2025-41")
        (claimTask entriesWithT1 [leakTask] "nico" "2025-41" 0).1 ≤ 1 :=
  weeklyEntry_unique_per_user_week entriesWithT1 [leakTask] "nico" "2025-41"
    "nico" "2025-41" "t2" "Write docs" "" "t1" "Fix the leak" "dd"
    "Completada ✅" 0 0 40 (by decide)

end AppTareas
